import Mathlib

/-!
Verification of the AeroFacil presentation layer (`aerofacil/views.py`).

The views are embedded shallowly: the relational state (Trip, Booking,
Aircraft rows) is a record of lists, each request handler is a pure
function from a database state and request data to a new state and an
HTTP response.  Timestamps are natural numbers (minutes since an epoch),
and the calendar date of a timestamp is its day index `t / 1440`, which
models Django's `__date` lookup.  Strings keep the literal flash-message
texts of the source.
-/

namespace AeroFacil

abbrev UserId := Nat

/-- Row of the `Aircraft` model: only the fields used by the views
(`pk` and `owner`) are modelled. -/
structure Aircraft where
  pk : Nat
  owner : UserId
deriving DecidableEq, Repr

/-- Row of the `Trip` model, with the fields the views read and write. -/
structure Trip where
  pk : Nat
  owner : UserId
  aircraft : Nat
  origin : String
  destination : String
  departure_time : Nat
  arrival_time : Nat
  available_seats : Nat
  description : String
  status : String
deriving DecidableEq, Repr

/-- Row of the `Booking` model: `trip` is the foreign key (a `Trip.pk`). -/
structure Booking where
  trip : Nat
  passenger : UserId
  seats_requested : Nat
  message_to_owner : String
deriving DecidableEq, Repr

/-- The relational state seen by the views, plus a fresh primary key for
trips created through `TripCreateView`. -/
structure Db where
  trips : List Trip
  bookings : List Booking
  aircrafts : List Aircraft
  nextTripPk : Nat
deriving DecidableEq, Repr

/-- `get_object_or_404(Trip, pk=...)`, as a partial lookup. -/
def findTrip (db : Db) (pk : Nat) : Option Trip :=
  db.trips.find? (fun t => t.pk == pk)

/-- Flash messages (`django.contrib.messages`) with their level. -/
inductive Msg where
  | error (text : String)
  | warning (text : String)
  | success (text : String)
deriving DecidableEq, Repr

/-- Redirect targets named by the views (`trip_detail` and `dashboard`). -/
inductive Target where
  | tripDetail (pk : Nat)
  | dashboard
deriving DecidableEq, Repr

/-- Outcome of a request: the login redirect of `LoginRequiredMixin`, a
404 from `get_object_or_404`, a 403 from `UserPassesTestMixin`, a
redirect carrying a flash message, or a re-rendered form page (invalid
form, nothing persisted). -/
inductive HttpResponse where
  | loginRedirect
  | notFound
  | forbidden
  | redirect (target : Target) (msg : Msg)
  | rendered
deriving DecidableEq, Repr

/-! ### Case-insensitive substring match (`__icontains`) -/

/-- `charsLeadEq q s` : the list `s` starts with `q`. -/
def charsLeadEq : List Char → List Char → Bool
  | [], _ => true
  | _ :: _, [] => false
  | a :: as, b :: bs => a == b && charsLeadEq as bs

/-- `charsContain s q` : `q` occurs as a contiguous run inside `s`. -/
def charsContain : List Char → List Char → Bool
  | [], q => charsLeadEq q []
  | c :: rest, q => charsLeadEq q (c :: rest) || charsContain rest q

/-- Django's `field__icontains=q`: case-insensitive substring test. -/
def icontains (s q : String) : Bool :=
  charsContain (s.toList.map Char.toLower) (q.toList.map Char.toLower)

/-- Calendar date of a timestamp (day index), modelling the `__date`
lookup on a datetime column; timestamps are minutes since an epoch. -/
def dateOf (t : Nat) : Nat := t / 1440

/-! ### Public listing views -/

/-- The base queryset shared by `HomePageView` and `TripListView`:
`Trip.objects.filter(status='OPEN', departure_time__gte=timezone.now())`. -/
def baseQueryset (now : Nat) (db : Db) : List Trip :=
  db.trips.filter (fun t => t.status == "OPEN" && decide (now ≤ t.departure_time))

/-- Ascending order on departure time (`order_by('departure_time')`). -/
def tripLE (a b : Trip) : Prop := a.departure_time ≤ b.departure_time

instance : DecidableRel tripLE :=
  fun a b => inferInstanceAs (Decidable (a.departure_time ≤ b.departure_time))

instance : IsTotal Trip tripLE :=
  ⟨fun a b => Nat.le_total a.departure_time b.departure_time⟩

instance : IsTrans Trip tripLE :=
  ⟨fun _ _ _ h h2 => Nat.le_trans h h2⟩

/-- `order_by('departure_time')`: a stable ascending sort. -/
def sortByDeparture (l : List Trip) : List Trip :=
  List.insertionSort tripLE l

/-- `HomePageView.get_context_data`: the five soonest open future trips. -/
def upcomingTrips (now : Nat) (db : Db) : List Trip :=
  (sortByDeparture (baseQueryset now db)).take 5

/-- The GET parameters of the search view; `none` is an absent
parameter, `some s` a supplied value (possibly the empty string). -/
structure SearchParams where
  origin : Option String
  destination : Option String
  date : Option String
deriving Repr

/-- `if origin: queryset = queryset.filter(origin__icontains=origin)` —
Python treats `None` and the empty string as falsy. -/
def originFilter (p : SearchParams) (q : List Trip) : List Trip :=
  match p.origin with
  | some s => if s == "" then q else q.filter (fun t => icontains t.origin s)
  | none => q

/-- `if destination: queryset = queryset.filter(destination__icontains=...)`. -/
def destinationFilter (p : SearchParams) (q : List Trip) : List Trip :=
  match p.destination with
  | some s => if s == "" then q else q.filter (fun t => icontains t.destination s)
  | none => q

/-- `if date: queryset = queryset.filter(departure_time__date=date)`.
The date parameter is modelled as the decimal numeral of a day index; a
trip matches when the calendar date of its departure equals it. -/
def dateFilter (p : SearchParams) (q : List Trip) : List Trip :=
  match p.date with
  | some s => if s == "" then q else q.filter (fun t => s.toNat? == some (dateOf t.departure_time))
  | none => q

/-- `TripListView.get_queryset`: base filter, the three optional
filters, then ascending order on departure time. -/
def getQueryset (now : Nat) (db : Db) (p : SearchParams) : List Trip :=
  sortByDeparture (dateFilter p (destinationFilter p (originFilter p (baseQueryset now db))))

/-- `paginate_by = 10`: page `n` (1-based) of a result list. -/
def pageOf (l : List Trip) (n : Nat) : List Trip :=
  (l.drop ((n - 1) * 10)).take 10

/-! ### Booking creation (`CreateBookingView`) -/

def selfBookingMsg : String :=
  "Você não pode reservar um assento na sua própria viagem."

def dupBookingMsg : String :=
  "Você já demonstrou interesse nesta viagem."

def bookingSuccessMsg : String :=
  "Seu interesse foi registrado com sucesso! O proprietário entrará em contato."

/-- `CreateBookingView`: `LoginRequiredMixin` first redirects anonymous
users to the login page; `form_valid` then fetches the trip (404 when
absent), rejects the trip's owner, rejects a duplicate `(trip,
passenger)` booking, and otherwise saves the booking and redirects to
the trip detail page. -/
def createBooking (db : Db) (user : Option UserId) (tripPk : Nat)
    (seatsRequested : Nat) (messageToOwner : String) : Db × HttpResponse :=
  match user with
  | none => (db, .loginRedirect)
  | some u =>
    match findTrip db tripPk with
    | none => (db, .notFound)
    | some trip =>
      if trip.owner == u then
        (db, .redirect (.tripDetail trip.pk) (.error selfBookingMsg))
      else if db.bookings.any (fun b => b.trip == trip.pk && b.passenger == u) then
        (db, .redirect (.tripDetail trip.pk) (.warning dupBookingMsg))
      else
        ({ db with
             bookings := db.bookings ++
               [{ trip := trip.pk, passenger := u,
                  seats_requested := seatsRequested, message_to_owner := messageToOwner }] },
         .redirect (.tripDetail tripPk) (.success bookingSuccessMsg))

/-- Number of `Booking` rows with the given trip and passenger. -/
def countBookings (db : Db) (tripPk : Nat) (u : UserId) : Nat :=
  (db.bookings.filter (fun b => b.trip == tripPk && b.passenger == u)).length

/-- A sequence of full booking requests by user `u` on trip `tripPk`,
each carrying its `seats_requested` and `message_to_owner` data. -/
def runAttempts (u : UserId) (tripPk : Nat) : List (Nat × String) → Db → Db
  | [], db => db
  | (s, m) :: rest, db => runAttempts u tripPk rest (createBooking db (some u) tripPk s m).1

/-! ### Owner CRUD views -/

/-- The data of the create-trip form: exactly the fields listed in
`TripCreateView.fields`; in particular there is no `owner` field. -/
structure TripCreateForm where
  aircraft : Nat
  origin : String
  destination : String
  departure_time : Nat
  arrival_time : Nat
  available_seats : Nat
  description : String
deriving DecidableEq, Repr

/-- The data of the update-trip form: `TripUpdateView.fields`, which add
`status` to the create fields and still exclude `owner`. -/
structure TripUpdateForm where
  aircraft : Nat
  origin : String
  destination : String
  departure_time : Nat
  arrival_time : Nat
  available_seats : Nat
  description : String
  status : String
deriving DecidableEq, Repr

/-- Modelled from the spec: the `Trip` model (`models.py`) is not part
of the excerpt, so the status a newly created trip starts with is taken
from the spec's glossary, where OPEN is the status under which a trip
accepts booking interest. -/
def defaultTripStatus : String := "OPEN"

/-- The trip persisted by `TripCreateView.form_valid`: the form fields
plus `owner = request.user`, set server-side. -/
def mkTrip (pk : Nat) (u : UserId) (f : TripCreateForm) : Trip :=
  { pk := pk, owner := u, aircraft := f.aircraft, origin := f.origin,
    destination := f.destination, departure_time := f.departure_time,
    arrival_time := f.arrival_time, available_seats := f.available_seats,
    description := f.description, status := defaultTripStatus }

/-- `TripUpdateView` writes the form fields onto the trip; `pk` and
`owner` are not form fields and are kept. -/
def applyTripForm (t : Trip) (f : TripUpdateForm) : Trip :=
  { t with
      aircraft := f.aircraft, origin := f.origin,
      destination := f.destination, departure_time := f.departure_time,
      arrival_time := f.arrival_time, available_seats := f.available_seats,
      description := f.description, status := f.status }

/-- `TripCreateView.get_form`: the aircraft choices offered are
`Aircraft.objects.filter(owner=self.request.user)`. -/
def offeredAircraft (db : Db) (u : UserId) : List Aircraft :=
  db.aircrafts.filter (fun a => a.owner == u)

def tripCreatedMsg : String := "Sua viagem foi anunciada com sucesso!"

def tripUpdatedMsg : String := "Viagem atualizada com sucesso!"

def tripDeletedMsg : String := "Viagem removida com sucesso."

/-- `TripCreateView`: requires login; the submitted aircraft is
validated against the restricted queryset set in `get_form` (a choice
outside it makes the form invalid and persists nothing); on success the
trip is saved with `owner = request.user` and the user is redirected to
the dashboard. -/
def createTrip (db : Db) (user : Option UserId) (form : TripCreateForm) : Db × HttpResponse :=
  match user with
  | none => (db, .loginRedirect)
  | some u =>
    if (offeredAircraft db u).any (fun a => a.pk == form.aircraft) then
      ({ db with
           trips := db.trips ++ [mkTrip db.nextTripPk u form],
           nextTripPk := db.nextTripPk + 1 },
       .redirect .dashboard (.success tripCreatedMsg))
    else
      (db, .rendered)

/-- `TripUpdateView`: login required, then `test_func` fetches the trip
(404 when absent) and demands `request.user == trip.owner` (403
otherwise); the form's aircraft field uses the default queryset of all
aircraft — no owner restriction; on success the form fields are written
onto the trip and the user is redirected to the dashboard. -/
def updateTrip (db : Db) (user : Option UserId) (tripPk : Nat)
    (form : TripUpdateForm) : Db × HttpResponse :=
  match user with
  | none => (db, .loginRedirect)
  | some u =>
    match findTrip db tripPk with
    | none => (db, .notFound)
    | some trip =>
      if u == trip.owner then
        if db.aircrafts.any (fun a => a.pk == form.aircraft) then
          ({ db with
               trips := db.trips.map
                 (fun t => if t.pk == tripPk then applyTripForm t form else t) },
           .redirect .dashboard (.success tripUpdatedMsg))
        else
          (db, .rendered)
      else
        (db, .forbidden)

/-- `TripDeleteView`: login required, then `test_func` fetches the trip
(404 when absent) and demands ownership (403 otherwise); on confirmation
the row is deleted and the user is redirected to the dashboard. -/
def deleteTrip (db : Db) (user : Option UserId) (tripPk : Nat) : Db × HttpResponse :=
  match user with
  | none => (db, .loginRedirect)
  | some u =>
    match findTrip db tripPk with
    | none => (db, .notFound)
    | some trip =>
      if u == trip.owner then
        ({ db with
             trips := db.trips.filter (fun t => !(t.pk == tripPk)) },
         .redirect .dashboard (.success tripDeletedMsg))
      else
        (db, .forbidden)

/-! ### Spec-side filter predicates

These three predicates transcribe the spec's description of the search
filters ("origin a case-insensitive substring match, destination a
case-insensitive substring match, date an exact calendar-date match
against departure_time", each applied only when the parameter is
supplied and non-empty); they are compared against the code's filter
chain `getQueryset`. -/

/-- Spec predicate: the origin filter, when supplied. -/
def originOk (p : Option String) (t : Trip) : Bool :=
  match p with
  | some s => if s == "" then true else icontains t.origin s
  | none => true

/-- Spec predicate: the destination filter, when supplied. -/
def destinationOk (p : Option String) (t : Trip) : Bool :=
  match p with
  | some s => if s == "" then true else icontains t.destination s
  | none => true

/-- Spec predicate: the exact calendar-date filter, when supplied. -/
def dateOk (p : Option String) (t : Trip) : Bool :=
  match p with
  | some s => if s == "" then true else s.toNat? == some (dateOf t.departure_time)
  | none => true

/-! ### Concrete fixtures used by witnesses and counterexamples -/

def exEmptyDb : Db := { trips := [], bookings := [], aircrafts := [], nextTripPk := 0 }

def exTripOpen : Trip :=
  { pk := 1, owner := 1, aircraft := 1, origin := "Natal", destination := "Recife",
    departure_time := 200, arrival_time := 300, available_seats := 3,
    description := "", status := "OPEN" }

def exTripClosed : Trip := { exTripOpen with pk := 4, status := "CLOSED" }

def exDb : Db :=
  { trips := [exTripOpen, exTripClosed], bookings := [],
    aircrafts := [{ pk := 1, owner := 1 }, { pk := 2, owner := 2 }], nextTripPk := 5 }

def exUpdateForm : TripUpdateForm :=
  { aircraft := 2, origin := "Natal", destination := "Recife", departure_time := 200,
    arrival_time := 300, available_seats := 3, description := "", status := "OPEN" }

def exCreateForm : TripCreateForm :=
  { aircraft := 1, origin := "Natal", destination := "Recife", departure_time := 200,
    arrival_time := 300, available_seats := 3, description := "" }

/-! ### Helper lemmas -/

/-- A trip returned by `findTrip db pk` has primary key `pk`. -/
theorem findTrip_pk {db : Db} {pk : Nat} {t : Trip} (h : findTrip db pk = some t) :
    t.pk = pk := by
  have h' : db.trips.find? (fun x => x.pk == pk) = some t := h
  simpa using List.find?_some h'

/-- A booking attempt by an authenticated user either leaves the state
unchanged, or no booking for `(tp, u)` existed and exactly the new row is
appended. -/
theorem createBooking_cases (db : Db) (u tp s : Nat) (m : String) :
    (createBooking db (some u) tp s m).1 = db ∨
    (countBookings db tp u = 0 ∧
      (createBooking db (some u) tp s m).1 =
        { db with bookings := db.bookings ++
            [{ trip := tp, passenger := u, seats_requested := s, message_to_owner := m }] }) := by
  cases hf : findTrip db tp with
  | none => left; simp [createBooking, hf]
  | some t =>
    have hpk : t.pk = tp := findTrip_pk hf
    cases ho : t.owner == u with
    | true => left; simp [createBooking, hf, ho]
    | false =>
      cases ha : db.bookings.any (fun b => b.trip == t.pk && b.passenger == u) with
      | true => left; simp [createBooking, hf, ho, ha]
      | false =>
        right
        simp only [hpk] at ha
        have h0 : countBookings db tp u = 0 := by
          simp only [countBookings, List.length_eq_zero, List.filter_eq_nil_iff]
          intro b hb
          exact (List.any_eq_false.mp ha) b hb
        refine ⟨h0, ?_⟩
        simp only [createBooking, hf]
        simp only [ho, Bool.false_eq_true, if_false, hpk, ha]

/-- `countBookings` after appending a matching row. -/
theorem countBookings_append (db : Db) (tp u s : Nat) (m : String) :
    countBookings
        { db with bookings := db.bookings ++
            [{ trip := tp, passenger := u, seats_requested := s, message_to_owner := m }] }
        tp u = countBookings db tp u + 1 := by
  simp [countBookings, List.filter_append]

/-- One booking attempt never pushes the `(tp, u)` booking count above
`max` of its old value and `1`. -/
theorem countBookings_createBooking_le (db : Db) (u tp s : Nat) (m : String) :
    countBookings (createBooking db (some u) tp s m).1 tp u ≤
      max (countBookings db tp u) 1 := by
  rcases createBooking_cases db u tp s m with h | ⟨h0, h⟩
  · rw [h]; exact Nat.le_max_left _ _
  · rw [h, countBookings_append, h0]; exact Nat.le_max_right _ _

/-- The at-most-one-booking invariant is preserved by any sequence of
booking attempts. -/
theorem countBookings_runAttempts_le (u tp : Nat) (atts : List (Nat × String)) (db : Db)
    (h : countBookings db tp u ≤ 1) :
    countBookings (runAttempts u tp atts db) tp u ≤ 1 := by
  induction atts generalizing db with
  | nil => exact h
  | cons a rest ih =>
    cases a with
    | mk s m =>
      apply ih
      calc countBookings (createBooking db (some u) tp s m).1 tp u
          ≤ max (countBookings db tp u) 1 := countBookings_createBooking_le db u tp s m
        _ ≤ 1 := Nat.max_le.mpr ⟨h, Nat.le_refl 1⟩

/-- A positive `(tp, u)` booking count is exactly what the duplicate
check of `CreateBookingView.form_valid` detects. -/
theorem countBookings_pos_iff_any (db : Db) (tp u : Nat) :
    0 < countBookings db tp u ↔
      db.bookings.any (fun b => b.trip == tp && b.passenger == u) = true := by
  rw [countBookings, List.length_pos]
  constructor
  · intro h
    rcases List.exists_mem_of_ne_nil _ h with ⟨b, hb⟩
    rcases List.mem_filter.mp hb with ⟨hbl, hbp⟩
    exact List.any_eq_true.mpr ⟨b, hbl, hbp⟩
  · intro h
    rcases List.any_eq_true.mp h with ⟨b, hbl, hbp⟩
    intro hnil
    have : b ∈ db.bookings.filter (fun b => b.trip == tp && b.passenger == u) :=
      List.mem_filter.mpr ⟨hbl, hbp⟩
    simp [hnil] at this

/-- Membership in the shared base queryset: exactly the stored trips
with status OPEN and a departure not in the past. -/
theorem mem_baseQueryset {now : Nat} {db : Db} {t : Trip} :
    t ∈ baseQueryset now db ↔
      t ∈ db.trips ∧ t.status = "OPEN" ∧ now ≤ t.departure_time := by
  simp [baseQueryset, List.mem_filter, and_assoc]

/-- The origin filter of `get_queryset` keeps exactly the trips
satisfying the spec's origin predicate. -/
theorem mem_originFilter {p : SearchParams} {q : List Trip} {t : Trip} :
    t ∈ originFilter p q ↔ t ∈ q ∧ originOk p.origin t = true := by
  cases hp : p.origin with
  | none => simp [originFilter, originOk, hp]
  | some s =>
    by_cases hs : s = ""
    · simp [originFilter, originOk, hp, hs]
    · simp [originFilter, originOk, hp, hs, List.mem_filter]

/-- The destination filter keeps exactly the trips satisfying the
spec's destination predicate. -/
theorem mem_destinationFilter {p : SearchParams} {q : List Trip} {t : Trip} :
    t ∈ destinationFilter p q ↔ t ∈ q ∧ destinationOk p.destination t = true := by
  cases hp : p.destination with
  | none => simp [destinationFilter, destinationOk, hp]
  | some s =>
    by_cases hs : s = ""
    · simp [destinationFilter, destinationOk, hp, hs]
    · simp [destinationFilter, destinationOk, hp, hs, List.mem_filter]

/-- The date filter keeps exactly the trips satisfying the spec's
calendar-date predicate. -/
theorem mem_dateFilter {p : SearchParams} {q : List Trip} {t : Trip} :
    t ∈ dateFilter p q ↔ t ∈ q ∧ dateOk p.date t = true := by
  cases hp : p.date with
  | none => simp [dateFilter, dateOk, hp]
  | some s =>
    by_cases hs : s = ""
    · simp [dateFilter, dateOk, hp, hs]
    · simp [dateFilter, dateOk, hp, hs, List.mem_filter]

/-- Membership in the full search queryset is the conjunction of the
base predicate and the three optional filter predicates. -/
theorem mem_getQueryset {now : Nat} {db : Db} {p : SearchParams} {t : Trip} :
    t ∈ getQueryset now db p ↔
      t ∈ db.trips ∧ (t.status = "OPEN" ∧ now ≤ t.departure_time) ∧
      originOk p.origin t = true ∧ destinationOk p.destination t = true ∧
      dateOk p.date t = true := by
  rw [getQueryset, sortByDeparture, List.mem_insertionSort,
      mem_dateFilter, mem_destinationFilter, mem_originFilter, mem_baseQueryset]
  tauto

/-! ### Claim theorems -/

/-- C1: after any sequence of booking attempts by user `u` on trip
`tripPk`, starting from a state with no booking for that pair, at most
one `Booking` row with that trip and passenger exists; moreover a single
attempt leaves the state unchanged when a booking already exists, and in
that situation (trip present, requester not the owner) it responds with
the duplicate warning and a redirect to the trip detail page. -/
theorem booking_at_most_one (db : Db) (u tripPk : Nat) (attempts : List (Nat × String))
    (h0 : countBookings db tripPk u = 0) :
    countBookings (runAttempts u tripPk attempts db) tripPk u ≤ 1 ∧
    (∀ (db2 : Db) (s : Nat) (m : String), 0 < countBookings db2 tripPk u →
      (createBooking db2 (some u) tripPk s m).1 = db2) ∧
    (∀ (db2 : Db) (s : Nat) (m : String) (t : Trip), findTrip db2 tripPk = some t →
      t.owner ≠ u → 0 < countBookings db2 tripPk u →
      createBooking db2 (some u) tripPk s m =
        (db2, .redirect (.tripDetail t.pk) (.warning dupBookingMsg))) := by
  refine ⟨countBookings_runAttempts_le u tripPk attempts db (by omega), ?_, ?_⟩
  · intro db2 s m hpos
    rcases createBooking_cases db2 u tripPk s m with h | ⟨hz, _⟩
    · exact h
    · omega
  · intro db2 s m t hfind hown hpos
    have hpk : t.pk = tripPk := findTrip_pk hfind
    have hany : db2.bookings.any (fun b => b.trip == t.pk && b.passenger == u) = true := by
      simp only [hpk]
      exact (countBookings_pos_iff_any db2 tripPk u).mp hpos
    have ho : (t.owner == u) = false := by simp [hown]
    simp [createBooking, hfind, ho, hany]

theorem booking_at_most_one_witness :
    countBookings exDb 1 2 = 0 ∧
    countBookings (runAttempts 2 1 [(1, "a"), (2, "b")] exDb) 1 2 ≤ 1 :=
  ⟨by decide, (booking_at_most_one exDb 2 1 [(1, "a"), (2, "b")] (by decide)).1⟩

/-- C2: an authenticated user who is not the owner of an existing trip
gets a Forbidden response from both the update and the delete view, and
the database — in particular the trip's row — is unchanged. -/
theorem nonOwner_update_delete_forbidden (db : Db) (u tripPk : Nat) (t : Trip)
    (form : TripUpdateForm) (hfind : findTrip db tripPk = some t) (hne : u ≠ t.owner) :
    updateTrip db (some u) tripPk form = (db, .forbidden) ∧
    deleteTrip db (some u) tripPk = (db, .forbidden) := by
  constructor
  · simp [updateTrip, hfind, hne]
  · simp [deleteTrip, hfind, hne]

theorem nonOwner_update_delete_forbidden_witness :
    updateTrip exDb (some 2) 1 exUpdateForm = (exDb, .forbidden) ∧
    deleteTrip exDb (some 2) 1 = (exDb, .forbidden) :=
  nonOwner_update_delete_forbidden exDb 2 1 exTripOpen exUpdateForm rfl (by decide)

/-- C3: the owner of a trip who attempts to book it always gets the
self-booking error message with a redirect to the trip detail page, and
the state — in particular the booking table — is unchanged. -/
theorem self_booking_rejected (db : Db) (u tripPk s : Nat) (m : String) (t : Trip)
    (hfind : findTrip db tripPk = some t) (hown : t.owner = u) :
    createBooking db (some u) tripPk s m =
      (db, .redirect (.tripDetail t.pk) (.error selfBookingMsg)) := by
  simp [createBooking, hfind, hown]

theorem self_booking_rejected_witness :
    createBooking exDb (some 1) 1 2 "oi" =
      (exDb, .redirect (.tripDetail exTripOpen.pk) (.error selfBookingMsg)) :=
  self_booking_rejected exDb 1 1 2 "oi" exTripOpen rfl rfl

/-- C4 counterexample: an unauthenticated booking request for a
nonexistent trip id is answered with the login redirect, not with
NotFound — refuting the claimed check order in which trip existence is
decided before authentication. -/
theorem booking_check_order_counterexample :
    (createBooking exEmptyDb none 7 1 "x").2 = HttpResponse.loginRedirect ∧
    ¬ (createBooking exEmptyDb none 7 1 "x").2 = HttpResponse.notFound :=
  ⟨rfl, by decide⟩

/-- C4 (amended): the booking preconditions are checked in the order
(b) requester authenticated (else login redirect), (a) trip exists
(else NotFound), (c) requester is not the trip owner (else error and
redirect), (d) no existing booking for the pair (else warning and
redirect), the first failing check determining the outcome; a request
for a nonexistent trip id yields NotFound only when the requester is
authenticated. -/
theorem booking_check_order (db : Db) (tripPk s : Nat) (m : String) :
    createBooking db none tripPk s m = (db, .loginRedirect) ∧
    (∀ u : UserId, findTrip db tripPk = none →
      createBooking db (some u) tripPk s m = (db, .notFound)) ∧
    (∀ (u : UserId) (t : Trip), findTrip db tripPk = some t → t.owner = u →
      createBooking db (some u) tripPk s m =
        (db, .redirect (.tripDetail t.pk) (.error selfBookingMsg))) ∧
    (∀ (u : UserId) (t : Trip), findTrip db tripPk = some t → t.owner ≠ u →
      db.bookings.any (fun b => b.trip == t.pk && b.passenger == u) = true →
      createBooking db (some u) tripPk s m =
        (db, .redirect (.tripDetail t.pk) (.warning dupBookingMsg))) ∧
    (∀ (u : UserId) (t : Trip), findTrip db tripPk = some t → t.owner ≠ u →
      db.bookings.any (fun b => b.trip == t.pk && b.passenger == u) = false →
      createBooking db (some u) tripPk s m =
        ({ db with
             bookings := db.bookings ++
               [{ trip := t.pk, passenger := u, seats_requested := s, message_to_owner := m }] },
         .redirect (.tripDetail tripPk) (.success bookingSuccessMsg))) := by
  refine ⟨rfl, ?_, ?_, ?_, ?_⟩
  · intro u hf; simp [createBooking, hf]
  · intro u t hf hown; simp [createBooking, hf, hown]
  · intro u t hf hown hany
    have ho : (t.owner == u) = false := by simp [hown]
    simp [createBooking, hf, ho, hany]
  · intro u t hf hown hany
    have ho : (t.owner == u) = false := by simp [hown]
    simp only [createBooking, hf]
    simp only [ho, Bool.false_eq_true, if_false, hany]

theorem booking_check_order_witness :
    createBooking exEmptyDb (some 3) 7 1 "x" = (exEmptyDb, .notFound) :=
  (booking_check_order exEmptyDb 7 1 "x").2.1 3 rfl

/-- C5: for every combination of the optional search parameters, the
search result set is exactly the stored trips satisfying the OPEN/future
base predicate intersected with the predicate of each supplied filter;
the result is sorted ascending by departure time and every page holds at
most 10 trips. -/
theorem search_results_characterized (now : Nat) (db : Db) (p : SearchParams) :
    (∀ t : Trip, t ∈ getQueryset now db p ↔
      t ∈ db.trips ∧ (t.status = "OPEN" ∧ now ≤ t.departure_time) ∧
      originOk p.origin t = true ∧ destinationOk p.destination t = true ∧
      dateOk p.date t = true) ∧
    List.Sorted tripLE (getQueryset now db p) ∧
    ∀ n : Nat, (pageOf (getQueryset now db p) n).length ≤ 10 := by
  refine ⟨fun t => mem_getQueryset, List.sorted_insertionSort tripLE _, fun n => ?_⟩
  simp [pageOf]

theorem search_results_characterized_witness :
    exTripOpen ∈ getQueryset 100 exDb
      { origin := some "nat", destination := none, date := none } :=
  ((search_results_characterized 100 exDb _).1 exTripOpen).mpr
    ⟨by decide, ⟨by decide, by decide⟩, by decide, by decide, by decide⟩

/-- C6: the home page shows the prefix of length five of the open,
future trips sorted ascending by departure time: a sorted list of at
most five base-queryset trips whose members all depart no later than any
open future trip left out, with length `min 5` of the number of
candidates; the computation reads the state and does not change it. -/
theorem home_five_soonest (now : Nat) (db : Db) :
    upcomingTrips now db = (sortByDeparture (baseQueryset now db)).take 5 ∧
    List.Sorted tripLE (upcomingTrips now db) ∧
    (∀ t : Trip, t ∈ upcomingTrips now db →
      t ∈ db.trips ∧ t.status = "OPEN" ∧ now ≤ t.departure_time) ∧
    (upcomingTrips now db).length = min 5 (baseQueryset now db).length ∧
    (∀ a b : Trip, a ∈ upcomingTrips now db → b ∈ baseQueryset now db →
      b ∉ upcomingTrips now db → a.departure_time ≤ b.departure_time) := by
  have hsorted : List.Sorted tripLE (sortByDeparture (baseQueryset now db)) :=
    List.sorted_insertionSort tripLE _
  refine ⟨rfl, ?_, ?_, ?_, ?_⟩
  · exact List.Pairwise.sublist (List.take_sublist 5 _) hsorted
  · intro t ht
    exact mem_baseQueryset.mp ((List.mem_insertionSort tripLE).mp (List.mem_of_mem_take ht))
  · simp [upcomingTrips, sortByDeparture, List.length_take, List.length_insertionSort]
  · intro a b ha hb hbn
    have hbL : b ∈ sortByDeparture (baseQueryset now db) :=
      (List.mem_insertionSort tripLE).mpr hb
    rw [← List.take_append_drop 5 (sortByDeparture (baseQueryset now db))] at hbL
    rcases List.mem_append.mp hbL with h | h
    · exact absurd h hbn
    · have hp := hsorted
      rw [← List.take_append_drop 5 (sortByDeparture (baseQueryset now db))] at hp
      exact (List.pairwise_append.mp hp).2.2 a ha b h

theorem home_five_soonest_witness :
    exTripOpen ∈ exDb.trips ∧ exTripOpen.status = "OPEN" ∧ 100 ≤ exTripOpen.departure_time :=
  (home_five_soonest 100 exDb).2.2.1 exTripOpen (by decide)

/-- C7: a trip that is not OPEN or departs before `now` is absent from
the home listing, from every search result set, and from every page of
every search result. -/
theorem closed_or_past_never_listed (now : Nat) (db : Db) (t : Trip) (p : SearchParams)
    (n : Nat) (h : t.status ≠ "OPEN" ∨ t.departure_time < now) :
    t ∉ upcomingTrips now db ∧ t ∉ getQueryset now db p ∧
    t ∉ pageOf (getQueryset now db p) n := by
  have hbase : t ∉ baseQueryset now db := by
    intro hmem
    rcases mem_baseQueryset.mp hmem with ⟨-, hst, hle⟩
    rcases h with h | h
    · exact h hst
    · omega
  refine ⟨?_, ?_, ?_⟩
  · intro hmem
    exact hbase ((List.mem_insertionSort tripLE).mp (List.mem_of_mem_take hmem))
  · intro hmem
    rcases mem_getQueryset.mp hmem with ⟨h1, ⟨h2, h3⟩, -⟩
    exact hbase (mem_baseQueryset.mpr ⟨h1, h2, h3⟩)
  · intro hmem
    have hq : t ∈ getQueryset now db p :=
      List.mem_of_mem_drop (List.mem_of_mem_take hmem)
    rcases mem_getQueryset.mp hq with ⟨h1, ⟨h2, h3⟩, -⟩
    exact hbase (mem_baseQueryset.mpr ⟨h1, h2, h3⟩)

theorem closed_or_past_never_listed_witness :
    exTripClosed ∉ upcomingTrips 100 exDb ∧
    exTripClosed ∉ getQueryset 100 exDb { origin := none, destination := none, date := none } ∧
    exTripClosed ∉ pageOf
      (getQueryset 100 exDb { origin := none, destination := none, date := none }) 1 :=
  closed_or_past_never_listed 100 exDb exTripClosed
    { origin := none, destination := none, date := none } 1 (Or.inl (by decide))

/-- C8: for an authenticated user the offered aircraft choices are the
user's own aircraft; a submission changes the trip table only when the
chosen aircraft is among those; on such a submission the persisted trip
carries `owner = u` (the form has no owner field) and the response is
the success message with a redirect to the dashboard, and a choice
outside the offered set persists nothing. -/
theorem create_trip_owner_and_aircraft (db : Db) (u : UserId) (form : TripCreateForm) :
    offeredAircraft db u = db.aircrafts.filter (fun a => a.owner == u) ∧
    (∀ t : Trip, t ∈ (createTrip db (some u) form).1.trips → t ∈ db.trips ∨ t.owner = u) ∧
    ((createTrip db (some u) form).1.trips ≠ db.trips →
      (offeredAircraft db u).any (fun a => a.pk == form.aircraft) = true) ∧
    ((offeredAircraft db u).any (fun a => a.pk == form.aircraft) = true →
      createTrip db (some u) form =
        ({ db with
             trips := db.trips ++ [mkTrip db.nextTripPk u form],
             nextTripPk := db.nextTripPk + 1 },
         .redirect .dashboard (.success tripCreatedMsg)) ∧
      (mkTrip db.nextTripPk u form).owner = u) ∧
    ((offeredAircraft db u).any (fun a => a.pk == form.aircraft) = false →
      createTrip db (some u) form = (db, .rendered)) := by
  refine ⟨rfl, ?_, ?_, ?_, ?_⟩
  · intro t ht
    cases hc : (offeredAircraft db u).any (fun a => a.pk == form.aircraft) with
    | false =>
      left
      simpa [createTrip, hc] using ht
    | true =>
      simp [createTrip, hc] at ht
      rcases ht with h | h
      · exact Or.inl h
      · exact Or.inr (h ▸ rfl)
  · intro hne
    cases hc : (offeredAircraft db u).any (fun a => a.pk == form.aircraft) with
    | false => simp [createTrip, hc] at hne
    | true => rfl
  · intro hc
    exact ⟨by simp [createTrip, hc], rfl⟩
  · intro hc
    simp [createTrip, hc]

theorem create_trip_owner_and_aircraft_witness :
    createTrip exDb (some 1) exCreateForm =
      ({ exDb with
           trips := exDb.trips ++ [mkTrip exDb.nextTripPk 1 exCreateForm],
           nextTripPk := exDb.nextTripPk + 1 },
       .redirect .dashboard (.success tripCreatedMsg)) ∧
    (mkTrip exDb.nextTripPk 1 exCreateForm).owner = 1 :=
  (create_trip_owner_and_aircraft exDb 1 exCreateForm).2.2.2.1 (by decide)

/-- C9: a search parameter supplied as the empty string is treated
exactly like an absent parameter — the corresponding filter is not
applied — for each of origin, destination and date. -/
theorem empty_search_param_ignored (now : Nat) (db : Db) (o d dt : Option String) :
    getQueryset now db { origin := some "", destination := d, date := dt } =
      getQueryset now db { origin := none, destination := d, date := dt } ∧
    getQueryset now db { origin := o, destination := some "", date := dt } =
      getQueryset now db { origin := o, destination := none, date := dt } ∧
    getQueryset now db { origin := o, destination := d, date := some "" } =
      getQueryset now db { origin := o, destination := d, date := none } := by
  refine ⟨?_, ?_, ?_⟩ <;>
    simp [getQueryset, originFilter, destinationFilter, dateFilter]

/-- C10: the update view edits the aircraft field without restricting
the choices to the requester's aircraft: in the fixture state, the owner
of trip 1 (user 1) successfully sets its aircraft to aircraft 2, which
belongs to user 2, while the create view rejects the same choice. -/
theorem update_allows_foreign_aircraft :
    (∃ a ∈ exDb.aircrafts, a.pk = exUpdateForm.aircraft ∧ a.owner ≠ exTripOpen.owner) ∧
    (updateTrip exDb (some exTripOpen.owner) exTripOpen.pk exUpdateForm).2 =
      .redirect .dashboard (.success tripUpdatedMsg) ∧
    (findTrip (updateTrip exDb (some exTripOpen.owner) exTripOpen.pk exUpdateForm).1
        exTripOpen.pk).map Trip.aircraft = some exUpdateForm.aircraft ∧
    createTrip exDb (some exTripOpen.owner)
      { aircraft := exUpdateForm.aircraft, origin := "Natal", destination := "Recife",
        departure_time := 200, arrival_time := 300, available_seats := 3, description := "" } =
      (exDb, .rendered) := by
  decide

end AeroFacil
